import Mathlib

/-!
# Verification of TensorFlowASR's streaming transducer model and training script

Shallow embedding of `tensorflow_asr/models/streaming_transducer.py` and
`examples/streaming_transducer/train_streaming_transducer.py`.

Tensor conventions of the embedding:
* numeric entries are modelled by `Int` (the claims under study are structural,
  none depends on floating-point arithmetic);
* an `(n+1)`-dimensional tensor is represented as the list of its slices along
  axis 0, so `tf.stack(xs, axis=0)` forms the list and `tf.unstack(t, axis=0)`
  recovers it; the batch axis of size 1 used throughout streaming inference is
  dropped.

Framework layers (RNN cells, layer normalization, dense projection) are opaque
to this repository: they are modelled as function-valued fields so that every
theorem quantifies over their behaviour.
-/

namespace TFASR

/-- A vector, e.g. one feature frame of shape `[P]`. -/
abbrev Vec := List Int

/-- A rank-2 tensor, e.g. a `[T, E]` sequence of frames or a `[1, P]` state. -/
abbrev Mat := List Vec

/-- The states of one RNN layer: `1 or 2` tensors of shape `[1, P]`
(one for GRU, two for LSTM). -/
abbrev StateStack := List Mat

/-- States for a stack of RNNs, shape `[num_rnns, 1 or 2, 1, P]`. -/
abbrev EncStates := List StateStack

/-- Features before the encoder's reshape: `T` frames of shape `[F, C]`. -/
abbrev Feats := List Mat

/-- An audio signal, shape `[None]`. -/
abbrev Signal := List Int

/-- The per-axis length profile of a rank-2 tensor (nested-list shape). -/
def matShape (m : Mat) : List Nat := m.map List.length

/-- The shape of one RNN's state stack. -/
def stackShape (s : StateStack) : List (List Nat) := s.map matShape

/-- The shape of a `[num_rnns, 1 or 2, 1, P]` states tensor. -/
def encShape (s : EncStates) : List (List (List Nat)) := s.map stackShape

/-- A recurrent layer as produced by `get_rnn(rnn_type)(units=..., return_sequences=True,
return_state=True, ...)`.  `run training initial_state inputs` models the call
`self.rnn(inputs, training=training, initial_state=initial_state)`, whose result tuple
`[output, *states]` is modelled as a pair of the output sequence and the state list.
`initialState` models `tf.stack(rnn.get_initial_state(tf.zeros([1, 1, 1])), axis=0)`. -/
structure RNNLayer where
  run : Bool → Option StateStack → Mat → Mat × StateStack
  initialState : StateStack

/-- Models `TimeReduction(factor)` applied to a sequence.
Modelled from the spec: `layers/subsampling.py` is not part of the sources under
study; the spec describes time reduction as "downsampling the time axis of
intermediate representations to reduce sequence length", which we model by
grouping each `factor` consecutive frames into one concatenated frame. -/
def timeReductionApply (factor : Int) (m : Mat) : Mat :=
  (m.toChunks factor.toNat).map List.flatten

/-- One `StreamingTransducerBlock` after construction: an optional time-reduction
layer, a recurrent layer, an optional layer normalization and a dense projection.
The normalization and projection receive the `training` flag at their call sites. -/
structure Block where
  reduction : Option (Mat → Mat)
  rnn : RNNLayer
  ln : Option (Bool → Mat → Mat)
  projection : Bool → Mat → Mat

/-- Constructor arguments of `StreamingTransducerBlock.__init__` that the claims
depend on, together with the framework-layer implementations it instantiates. -/
structure BlockConfig where
  reduction_factor : Int
  layer_norm : Bool
  rnnImpl : RNNLayer
  lnImpl : Bool → Mat → Mat
  projImpl : Bool → Mat → Mat

/-- Models `StreamingTransducerBlock.__init__`: a `TimeReduction` layer exists iff
`reduction_factor > 0`, a `LayerNormalization` iff `layer_norm`. -/
def mkBlock (c : BlockConfig) : Block :=
  { reduction := if c.reduction_factor > 0 then some (timeReductionApply c.reduction_factor) else none
    rnn := c.rnnImpl
    ln := if c.layer_norm then some c.lnImpl else none
    projection := c.projImpl }

/-- Models `StreamingTransducerBlock.call(inputs, training)`. -/
def Block.call (b : Block) (training : Bool) (inputs : Mat) : Mat :=
  let outputs := inputs
  let outputs := match b.reduction with
    | some r => r outputs
    | none => outputs
  let res := b.rnn.run training none outputs
  let outputs := res.1
  let outputs := match b.ln with
    | some l => l training outputs
    | none => outputs
  b.projection training outputs

/-- Models `StreamingTransducerBlock.recognize(inputs, states)`: same pipeline with
`training=False` and the supplied `initial_state`; additionally returns
`tf.stack(outputs[1:], axis=0)`, the RNN's new states. -/
def Block.recognize (b : Block) (inputs : Mat) (states : StateStack) : Mat × StateStack :=
  let outputs := inputs
  let outputs := match b.reduction with
    | some r => r outputs
    | none => outputs
  let res := b.rnn.run false (some states) outputs
  let new_states := res.2
  let outputs := res.1
  let outputs := match b.ln with
    | some l => l false outputs
    | none => outputs
  (b.projection false outputs, new_states)

/-- Models `merge_two_last_dims`: reshapes `[T, F, C]` features into `[T, F*C]` by
flattening the two trailing axes of each frame (the `Reshape` layer's `call`).
Modelled from the spec: `utils/utils.py` is not part of the sources under study;
the encoder docstring records the `[1, T, F, C] -> [1, T, E]` contract. -/
def mergeTwoLastDims (x : Feats) : Mat := x.map List.flatten

/-- Models `StreamingTransducerEncoder` after construction: the reshape layer is fixed,
so only the block list and the computed `time_reduction_factor` remain. -/
structure Encoder where
  blocks : List Block
  time_reduction_factor : Int

/-- The loop body of `StreamingTransducerEncoder.recognize`: feed `outputs`
through each block with that block's slice of the states tensor, collecting each
block's new states.  `states[i]` on a too-short states tensor is an out-of-range
index error in the source, modelled as `none`. -/
def encRec : List Block → Mat → EncStates → Option (Mat × EncStates)
  | [], outputs, _ => some (outputs, [])
  | b :: bs, outputs, [] =>
      let _ := b
      let _ := bs
      let _ := outputs
      none
  | b :: bs, outputs, s :: ss =>
      let res := b.recognize outputs s
      match encRec bs res.1 ss with
      | none => none
      | some (out, rest) => some (out, res.2 :: rest)

/-- Total companion of `encRec` (defined on the zip of blocks and states); used
to state what `encRec` computes when the states tensor has one slice per block. -/
def encRecT : List Block → Mat → EncStates → Mat × EncStates
  | [], outputs, _ => (outputs, [])
  | _ :: _, outputs, [] => (outputs, [])
  | b :: bs, outputs, s :: ss =>
      let res := b.recognize outputs s
      let rec2 := encRecT bs res.1 ss
      (rec2.1, res.2 :: rec2.2)

/-- The sequence handed to each successive block during `encRec` (first element
is the reshaped encoder input, later elements are the preceding block's output). -/
def encInputs : List Block → Mat → EncStates → List Mat
  | [], _, _ => []
  | _ :: _, _, [] => []
  | b :: bs, outputs, s :: ss => outputs :: encInputs bs (b.recognize outputs s).1 ss

/-- Models `StreamingTransducerEncoder.recognize(inputs, states)`. -/
def Encoder.recognize (e : Encoder) (inputs : Feats) (states : EncStates) :
    Option (Mat × EncStates) :=
  encRec e.blocks (mergeTwoLastDims inputs) states

/-- Models `StreamingTransducerEncoder.get_initial_state`: one stacked zero-state per
block, stacked along axis 0. -/
def Encoder.get_initial_state (e : Encoder) : EncStates :=
  e.blocks.map (fun b => b.rnn.initialState)

/-- Models `reductions.get(i, 0)` on the reductions dict, modelled as an association
list with the first binding of a key winning (Python dict keys are unique). -/
def dictGet (d : List (Nat × Int)) (k : Nat) (default : Int) : Int :=
  match d.find? (fun p => p.1 == k) with
  | some p => p.2
  | none => default

/-- The `time_reduction_factor` loop of `StreamingTransducerEncoder.__init__`:
start at 1 and multiply in every positive `reductions.get(i, 0)` for
`i in range(nlayers)`. -/
def timeReductionFactorCalc (reductions : List (Nat × Int)) (nlayers : Nat) : Int :=
  (List.range nlayers).foldl
    (fun acc i =>
      let reduction_factor := dictGet reductions i 0
      if reduction_factor > 0 then acc * reduction_factor else acc)
    1

/-- Constructor arguments of `StreamingTransducerEncoder.__init__` the claims
depend on, with the framework-layer implementations for each block index. -/
structure EncoderConfig where
  reductions : List (Nat × Int)
  nlayers : Nat
  layer_norm : Bool
  rnnImpl : Nat → RNNLayer
  lnImpl : Nat → Bool → Mat → Mat
  projImpl : Nat → Bool → Mat → Mat

/-- Models `StreamingTransducerEncoder.__init__`: block `i` gets
`reduction_factor = reductions.get(i, 0)`, and `time_reduction_factor` is the
product of the positive factors. -/
def mkEncoder (c : EncoderConfig) : Encoder :=
  { blocks := (List.range c.nlayers).map (fun i =>
      mkBlock
        { reduction_factor := dictGet c.reductions i 0
          layer_norm := c.layer_norm
          rnnImpl := c.rnnImpl i
          lnImpl := c.lnImpl i
          projImpl := c.projImpl i })
    time_reduction_factor := timeReductionFactorCalc c.reductions c.nlayers }

/-- The hypothesis object returned by `Transducer.perform_greedy`: a token
sequence and the prediction network's final states. -/
structure Hyp where
  prediction : List Int
  states : EncStates

/-- Models `StreamingTransducer` as used by the decoding methods: its encoder plus the
members inherited from `Transducer` (speech/text featurizers, prediction
network, greedy and beam decoding), which live outside the sources under study
and are therefore opaque function-valued fields.  `performGreedy` takes the
encoded sequence, the previous predicted token, the prediction-net states and
the `swap_memory` flag. -/
structure STModel where
  encoder : Encoder
  time_reduction_factor : Int
  tf_extract : Signal → Feats
  blank : Int
  predictNetInitialState : EncStates
  performGreedy : Mat → Int → EncStates → Bool → Hyp
  performBeamSearch : Mat → Bool → String
  iextract : List Int → String
  indices2upoints : List Int → List Int

/-- Models `StreamingTransducer.encoder_inference(features, states)`: expand to a batch
of one, run the encoder's `recognize`, squeeze the batch axis (the batch axis is
not represented, so only the encoder call remains). -/
def STModel.encoder_inference (m : STModel) (features : Feats) (states : EncStates) :
    Option (Mat × EncStates) :=
  m.encoder.recognize features states

/-- Models `packaging.version.parse` restricted to dotted numeric versions: the list of
numeric components (a non-numeric component counts as 0). -/
def parseVersion (s : String) : List Nat :=
  (s.splitOn ".").map (fun t => t.toNat?.getD 0)

/-- Lexicographic strict order on version component lists, missing trailing
components counting as 0 (so `2.3.0 = 2.3`). -/
def verCompLt : List Nat → List Nat → Bool
  | [], [] => false
  | [], b :: bs => 0 < b || verCompLt [] bs
  | _ :: _, [] => false
  | a :: as, b :: bs => a < b || (a == b && verCompLt as bs)

/-- Models `version.parse(x) >= version.parse(y)` for dotted numeric versions. -/
def versionGE (x y : String) : Bool :=
  !(verCompLt (parseVersion x) (parseVersion y))

/-- Models `tf.map_fn(fn, elems, fn_output_signature=...)` on an axis-0 list of
elements: the framework maps `fn` over the axis-0 slices. -/
def mapFnSig {α β : Type} (fn : α → β) (elems : List α) : List β := elems.map fn

/-- Models `tf.map_fn(fn, elems, dtype=...)` (the pre-2.3 spelling): same mapping with
the output dtype given by the deprecated `dtype` argument. -/
def mapFnDtype {α β : Type} (fn : α → β) (elems : List α) : List β := elems.map fn

/-- Models `with tf.device(d): body` — device placement does not change the value a
graph computes, so the scope is the identity on the computed value. -/
def withDevice {α : Type} (d : String) (body : α) : α :=
  let _ := d
  body

/-- The per-signal `execute` closure of `StreamingTransducer.recognize`:
extract features, run the encoder from its zero states, greedy-decode from the
blank token and the prediction net's zero states, and extract one scalar
transcript.  `none` models the index error raised if the encoder's states
tensor had fewer slices than blocks (impossible for `get_initial_state`). -/
def STModel.executeG (m : STModel) (signal : Signal) : Option String :=
  let features := m.tf_extract signal
  match m.encoder_inference features m.encoder.get_initial_state with
  | none => none
  | some (encoded, _) =>
      let hypothesis := m.performGreedy encoded m.blank m.predictNetInitialState true
      some (m.iextract hypothesis.prediction)

/-- Models `StreamingTransducer.recognize(signals)` (a `tf.function`): branch on the
framework version string, and in both branches map `execute` over the batch. -/
def STModel.recognize (m : STModel) (tfVersion : String) (signals : List Signal) :
    List (Option String) :=
  if versionGE tfVersion "2.3" then
    mapFnSig m.executeG signals
  else
    withDevice "/cpu:0" (mapFnDtype m.executeG signals)

/-- Models `tf.strings.split` on the default whitespace separator, keeping the
non-empty pieces. -/
def stringsSplit (s : String) : List String :=
  (s.splitOn " ").filter (fun t => t ≠ "")

/-- Models `tf.strings.to_number(x, tf.int32)` on a decimal token (0 if non-numeric). -/
def stringsToNumber (s : String) : Int :=
  (s.toInt?).getD 0

/-- The per-signal `execute` closure of `StreamingTransducer.recognize_beam`:
extract features, run the encoder from its zero states, beam-search, parse the
space-separated token string back into indices, and extract one transcript. -/
def STModel.executeB (m : STModel) (lm : Bool) (signal : Signal) : Option String :=
  let features := m.tf_extract signal
  match m.encoder_inference features m.encoder.get_initial_state with
  | none => none
  | some (encoded, _) =>
      let hypothesis := m.performBeamSearch encoded lm
      let prediction := (stringsSplit hypothesis).map stringsToNumber
      some (m.iextract prediction)

/-- Models `StreamingTransducer.recognize_beam(signals, lm)`. -/
def STModel.recognize_beam (m : STModel) (signals : List Signal) (lm : Bool) :
    List (Option String) :=
  mapFnSig (m.executeB lm) signals

/-- Models `StreamingTransducer.recognize_tflite(signal, predicted, encoder_states,
prediction_states)`.  `none` models the two ways the source can raise: an
out-of-range `states[i]` in the encoder loop, and `hypothesis.prediction[-1]`
on an empty prediction sequence. -/
def STModel.recognize_tflite (m : STModel) (signal : Signal) (predicted : Int)
    (encoder_states prediction_states : EncStates) :
    Option (List Int × Int × EncStates × EncStates) :=
  let features := m.tf_extract signal
  match m.encoder_inference features encoder_states with
  | none => none
  | some (encoded, new_encoder_states) =>
      let hypothesis := m.performGreedy encoded predicted prediction_states false
      let transcript := m.indices2upoints hypothesis.prediction
      match hypothesis.prediction.getLast? with
      | none => none
      | some last => some (transcript, last, new_encoder_states, hypothesis.states)

/-- The common layer sequence shared by `StreamingTransducerBlock.call` and
`StreamingTransducerBlock.recognize`, stated from the spec's description:
optional time reduction, then the RNN (with a training flag and an optional
initial state), then optional layer normalization, then the dense projection;
the RNN's returned states are passed through. -/
def Block.pipeline (b : Block) (training : Bool) (init : Option StateStack) (inputs : Mat) :
    Mat × StateStack :=
  let reduced := match b.reduction with
    | some r => r inputs
    | none => inputs
  let res := b.rnn.run training init reduced
  let normed := match b.ln with
    | some l => l training res.1
    | none => res.1
  (b.projection training normed, res.2)

/-- Models `StreamingTransducer.__init__`: the model is built around
`mkEncoder`, and `self.time_reduction_factor = self.encoder.time_reduction_factor`. -/
def mkSTModel (ec : EncoderConfig) (tf_extract : Signal → Feats) (blank : Int)
    (predictNetInitialState : EncStates) (performGreedy : Mat → Int → EncStates → Bool → Hyp)
    (performBeamSearch : Mat → Bool → String) (iextract : List Int → String)
    (indices2upoints : List Int → List Int) : STModel :=
  let encoder := mkEncoder ec
  { encoder := encoder
    time_reduction_factor := encoder.time_reduction_factor
    tf_extract := tf_extract
    blank := blank
    predictNetInitialState := predictNetInitialState
    performGreedy := performGreedy
    performBeamSearch := performBeamSearch
    iextract := iextract
    indices2upoints := indices2upoints }

/-- The encoder output `recognize`'s `execute` feeds to greedy/beam decoding:
the first component of the encoder pass over a signal's features, started from
the encoder's zero states. -/
def encodedFromInit (m : STModel) (signal : Signal) : Mat :=
  (encRecT m.encoder.blocks (mergeTwoLastDims (m.tf_extract signal))
    m.encoder.get_initial_state).1

/-- The encoder output inside `recognize_tflite`, for given encoder states. -/
def encodedWith (m : STModel) (signal : Signal) (states : EncStates) : Mat :=
  (encRecT m.encoder.blocks (mergeTwoLastDims (m.tf_extract signal)) states).1

/-! ## The training script `train_streaming_transducer.py` -/

/-- The parsed command-line arguments of the training script. -/
structure Args where
  config : String
  max_ckpts : Int
  tfrecords : Bool
  tbs : Option Int
  ebs : Option Int
  devices : List Int
  mxp : Bool
  cache : Bool
deriving DecidableEq, Repr

/-- The kind and default of one `argparse` option. -/
inductive OptDefault
  | str (s : String)
  | int (i : Int)
  | optIntNone
  | storeTrueFalse
  | intList (l : List Int)
deriving DecidableEq, Repr

/-- One `parser.add_argument(flag, ...)` entry. -/
structure OptSpec where
  flag : String
  default : OptDefault
deriving DecidableEq, Repr

/-- The `argparse` surface of the training script, in source order;
`defaultYaml` is the `config.yml` path beside the script. -/
def parserOptions (defaultYaml : String) : List OptSpec :=
  [ { flag := "--config", default := .str defaultYaml }
  , { flag := "--max_ckpts", default := .int 10 }
  , { flag := "--tfrecords", default := .storeTrueFalse }
  , { flag := "--tbs", default := .optIntNone }
  , { flag := "--ebs", default := .optIntNone }
  , { flag := "--devices", default := .intList [0] }
  , { flag := "--mxp", default := .storeTrueFalse }
  , { flag := "--cache", default := .storeTrueFalse } ]

/-- Which dataset class the script instantiates. -/
inductive DatasetKind
  | tfrecord
  | slice
deriving DecidableEq, Repr

/-- The arguments of one dataset constructor call that come from the CLI or
from literals in the script (the config-derived arguments are not CLI data). -/
structure DatasetCall where
  kind : DatasetKind
  stage : String
  cache : Bool
  shuffle : Bool
deriving DecidableEq, Repr

/-- Everything the script passes into framework APIs and configuration objects,
recorded per call site. -/
structure ScriptTrace where
  autoMixedPrecision : Bool
  strategyDevices : List Int
  configPath : String
  trainDataset : DatasetCall
  evalDataset : DatasetCall
  compileMaxToKeep : Int
  fitTrainBs : Option Int
  fitEvalBs : Option Int
deriving DecidableEq, Repr

/-- The straight-line data flow of the training script from parsed arguments to
framework call sites. -/
def scriptCalls (args : Args) : ScriptTrace :=
  { autoMixedPrecision := args.mxp
    strategyDevices := args.devices
    configPath := args.config
    trainDataset :=
      { kind := if args.tfrecords then .tfrecord else .slice
        stage := "train"
        cache := args.cache
        shuffle := true }
    evalDataset :=
      { kind := if args.tfrecords then .tfrecord else .slice
        stage := "eval"
        cache := args.cache
        shuffle := true }
    compileMaxToKeep := args.max_ckpts
    fitTrainBs := args.tbs
    fitEvalBs := args.ebs }

/-- A typed value occurring as an argument of a framework or configuration
call in the training script. -/
inductive ArgVal
  | str (s : String)
  | int (i : Int)
  | optInt (o : Option Int)
  | bool (b : Bool)
  | intList (l : List Int)
deriving DecidableEq, Repr

/-- The parsed command-line values the script passes on, one entry per
occurrence in a framework or configuration call: `args.mxp` to
`set_experimental_options`, `args.devices` to `setup_strategy`, `args.config`
to `Config`, `args.cache` to the train and eval dataset constructors,
`args.max_ckpts` to `compile`, and `args.tbs`, `args.ebs` to `fit`.
`args.tfrecords` appears in no call: it is only the script's own branch
condition choosing between the dataset classes. -/
def forwardedArgs (args : Args) : List ArgVal :=
  [ .bool args.mxp
  , .intList args.devices
  , .str args.config
  , .bool args.cache
  , .bool args.cache
  , .int args.max_ckpts
  , .optInt args.tbs
  , .optInt args.ebs ]

/-! ## Error propagation

The script and the model never catch or wrap exceptions, so we model every
external call as fallible (`Except`) and show that the sequencing written in
the sources propagates any error unchanged.  `ε` is the framework's exception
type and `α` the type of framework objects, both opaque to the repository. -/

/-- The external calls the training script makes, in source order: environment
setup, session reset, optimizer options, distribution strategy, configuration
load, the two featurizers, the dataset constructors, the trainer, model
construction, `_build`, `summary`, the optimizer, `compile` and `fit`. -/
structure ScriptEnv (ε α : Type) where
  setupEnvironment : Except ε α
  clearSession : Except ε α
  setOptions : Bool → Except ε α
  setupStrategy : List Int → Except ε α
  loadConfig : String → Except ε α
  mkSpeechFeaturizer : α → Except ε α
  mkTextFeaturizer : α → Except ε α
  mkTFRecordDataset : α → α → α → String → Bool → Except ε α
  mkSliceDataset : α → α → α → String → Bool → Except ε α
  mkTrainer : α → α → α → Except ε α
  mkModel : α → α → Except ε α
  buildModel : α → α → Except ε α
  summaryModel : α → Except ε α
  getOptimizer : α → Except ε α
  compileTrainer : α → α → α → Int → Except ε α
  fitTrainer : α → α → α → Option Int → Option Int → Except ε α

/-- The `if args.tfrecords:` branch of the script: construct either an
`ASRTFRecordDataset` or an `ASRSliceDataset` for the given stage. -/
def datasetCtor {ε α : Type} (env : ScriptEnv ε α) (tfrecords : Bool)
    (config speech_featurizer text_featurizer : α) (stage : String) (cache : Bool) :
    Except ε α :=
  if tfrecords then
    env.mkTFRecordDataset config speech_featurizer text_featurizer stage cache
  else
    env.mkSliceDataset config speech_featurizer text_featurizer stage cache

/-- The module-level control flow of `train_streaming_transducer.py`: a
straight-line sequence of external calls (with the `args.tfrecords` branch for
the dataset class), no `try`/`except` anywhere. -/
def runScript {ε α : Type} (env : ScriptEnv ε α) (args : Args) : Except ε α := do
  let _ ← env.setupEnvironment
  let _ ← env.clearSession
  let _ ← env.setOptions args.mxp
  let strategy ← env.setupStrategy args.devices
  let config ← env.loadConfig args.config
  let speech_featurizer ← env.mkSpeechFeaturizer config
  let text_featurizer ← env.mkTextFeaturizer config
  let train_dataset ←
    datasetCtor env args.tfrecords config speech_featurizer text_featurizer "train" args.cache
  let eval_dataset ←
    datasetCtor env args.tfrecords config speech_featurizer text_featurizer "eval" args.cache
  let trainer ← env.mkTrainer config text_featurizer strategy
  let model ← env.mkModel config text_featurizer
  let _ ← env.buildModel model speech_featurizer
  let _ ← env.summaryModel model
  let optimizer ← env.getOptimizer config
  let _ ← env.compileTrainer trainer model optimizer args.max_ckpts
  env.fitTrainer trainer train_dataset eval_dataset args.tbs args.ebs

/-- The external calls `StreamingTransducer.recognize_tflite` makes: feature
extraction, the encoder's stateful `recognize`, greedy decoding, and code-point
extraction. -/
structure ModelEnv (ε α : Type) where
  tfExtract : α → Except ε α
  encoderRecognize : α → α → Except ε (α × α)
  performGreedyRun : α → α → α → Except ε α
  upoints : α → Except ε α
  lastPrediction : α → Except ε α

/-- The control flow of `recognize_tflite` with each external call fallible:
no handler intervenes between a raised exception and the caller. -/
def runRecognizeTflite {ε α : Type} (env : ModelEnv ε α)
    (signal predicted encoder_states prediction_states : α) :
    Except ε (α × α × α × α) := do
  let features ← env.tfExtract signal
  let encRes ← env.encoderRecognize features encoder_states
  let hypothesis ← env.performGreedyRun encRes.1 predicted prediction_states
  let transcript ← env.upoints hypothesis
  let last ← env.lastPrediction hypothesis
  pure (transcript, last, encRes.2, hypothesis)

/-! ## Concrete fixtures

Small concrete layer implementations used to evaluate the theorems on closed
inputs. -/

/-- A concrete recurrent layer: echoes its input sequence and returns the
supplied initial state (or the zero state) as its new state. -/
def idRNN : RNNLayer :=
  { run := fun _ init x => (x, init.getD [[[0]]])
    initialState := [[[0]]] }

/-- A concrete block configuration with a positive reduction factor. -/
def cfgP : BlockConfig :=
  { reduction_factor := 3
    layer_norm := true
    rnnImpl := idRNN
    lnImpl := fun _ y => y
    projImpl := fun _ y => y }

/-- The same configuration with `reduction_factor = 0`. -/
def cfgZ : BlockConfig :=
  { cfgP with reduction_factor := 0 }

/-- A concrete one-block encoder. -/
def encA : Encoder :=
  { blocks := [mkBlock cfgZ]
    time_reduction_factor := 1 }

/-- A concrete streaming-transducer model over `encA` whose greedy decoder
returns the seeded token and passes its states through. -/
def modelA : STModel :=
  { encoder := encA
    time_reduction_factor := 1
    tf_extract := fun _ => [[[1], [2]]]
    blank := 0
    predictNetInitialState := [[[[5]]]]
    performGreedy := fun _ predicted states _ => { prediction := [predicted], states := states }
    performBeamSearch := fun _ _ => "1 2"
    iextract := fun l => toString l.length
    indices2upoints := fun l => l }

/-- A concrete encoder configuration whose reductions dict has an
out-of-range key and a non-positive value. -/
def encCfgMain : EncoderConfig :=
  { reductions := [(0, 3), (1, 2), (5, 4), (2, -1)]
    nlayers := 3
    layer_norm := true
    rnnImpl := fun _ => idRNN
    lnImpl := fun _ _ y => y
    projImpl := fun _ _ y => y }

/-- A concrete encoder configuration with no positive reduction factor. -/
def encCfgNeg : EncoderConfig :=
  { encCfgMain with reductions := [(0, -2)], nlayers := 2 }

/-- A concrete script environment in which every external call succeeds. -/
def envOkS : ScriptEnv Nat Nat :=
  { setupEnvironment := .ok 0
    clearSession := .ok 0
    setOptions := fun _ => .ok 0
    setupStrategy := fun _ => .ok 0
    loadConfig := fun _ => .ok 0
    mkSpeechFeaturizer := fun _ => .ok 0
    mkTextFeaturizer := fun _ => .ok 0
    mkTFRecordDataset := fun _ _ _ _ _ => .ok 0
    mkSliceDataset := fun _ _ _ _ _ => .ok 0
    mkTrainer := fun _ _ _ => .ok 0
    mkModel := fun _ _ => .ok 0
    buildModel := fun _ _ => .ok 0
    summaryModel := fun _ => .ok 0
    getOptimizer := fun _ => .ok 0
    compileTrainer := fun _ _ _ _ => .ok 0
    fitTrainer := fun _ _ _ _ _ => .ok 0 }

/-- A concrete model environment in which every external call succeeds. -/
def menvOk : ModelEnv Nat Nat :=
  { tfExtract := fun _ => .ok 0
    encoderRecognize := fun _ _ => .ok (0, 0)
    performGreedyRun := fun _ _ _ => .ok 0
    upoints := fun _ => .ok 0
    lastPrediction := fun _ => .ok 0 }

/-- Concrete parsed arguments (all defaults, `--config c`). -/
def argsW : Args :=
  { config := "c"
    max_ckpts := 10
    tfrecords := false
    tbs := none
    ebs := none
    devices := [0]
    mxp := false
    cache := false }

end TFASR

namespace TFASR

/-! ## Theorems -/

/-- C5: `StreamingTransducerBlock.recognize` computes its output by the same
layer sequence as `call` — optional time reduction, RNN, optional layer
normalization, dense projection — differing only in running the RNN with
`training=False` and the supplied initial state, and additionally returning the
RNN's new states. -/
theorem claim5_call_recognize_agreement (b : Block) (training : Bool)
    (inputs : Mat) (states : StateStack) :
    b.call training inputs = (b.pipeline training none inputs).1 ∧
    b.recognize inputs states = b.pipeline false (some states) inputs := by
  constructor <;> rfl

/-- C2: when a `StreamingTransducerBlock` is built with `reduction_factor > 0`,
both `call` and `recognize` apply the `TimeReduction` layer before the RNN;
with `reduction_factor <= 0` no reduction layer exists and the RNN consumes
the inputs unreduced; in both cases the order is optional time reduction, RNN,
optional layer normalization, dense projection. -/
theorem claim2_time_reduction_order (c : BlockConfig) (t : Bool) (x : Mat) (s : StateStack) :
    (0 < c.reduction_factor →
      (mkBlock c).reduction = some (timeReductionApply c.reduction_factor) ∧
      (mkBlock c).call t x =
        c.projImpl t
          (if c.layer_norm then
            c.lnImpl t ((c.rnnImpl.run t none (timeReductionApply c.reduction_factor x)).1)
          else
            (c.rnnImpl.run t none (timeReductionApply c.reduction_factor x)).1) ∧
      (mkBlock c).recognize x s =
        (c.projImpl false
          (if c.layer_norm then
            c.lnImpl false ((c.rnnImpl.run false (some s) (timeReductionApply c.reduction_factor x)).1)
          else
            (c.rnnImpl.run false (some s) (timeReductionApply c.reduction_factor x)).1),
         (c.rnnImpl.run false (some s) (timeReductionApply c.reduction_factor x)).2)) ∧
    (c.reduction_factor ≤ 0 →
      (mkBlock c).reduction = none ∧
      (mkBlock c).call t x =
        c.projImpl t
          (if c.layer_norm then c.lnImpl t ((c.rnnImpl.run t none x).1)
           else (c.rnnImpl.run t none x).1) ∧
      (mkBlock c).recognize x s =
        (c.projImpl false
          (if c.layer_norm then c.lnImpl false ((c.rnnImpl.run false (some s) x).1)
           else (c.rnnImpl.run false (some s) x).1),
         (c.rnnImpl.run false (some s) x).2)) := by
  constructor
  · intro h
    refine ⟨by simp [mkBlock, h], ?_, ?_⟩ <;>
      by_cases hln : c.layer_norm <;>
        simp [Block.call, Block.recognize, mkBlock, h, hln]
  · intro h
    refine ⟨by simp [mkBlock, not_lt.mpr h], ?_, ?_⟩ <;>
      by_cases hln : c.layer_norm <;>
        simp [Block.call, Block.recognize, mkBlock, not_lt.mpr h, hln]

/-- Witness for C2, at a block with `reduction_factor = 3` (first half) and a
block with `reduction_factor = 0` (second half). -/
theorem claim2_time_reduction_order_witness :
    ((mkBlock cfgP).reduction = some (timeReductionApply cfgP.reduction_factor) ∧
      (mkBlock cfgP).call true [[1], [2], [3]] =
        cfgP.projImpl true
          (if cfgP.layer_norm then
            cfgP.lnImpl true
              ((cfgP.rnnImpl.run true none (timeReductionApply cfgP.reduction_factor [[1], [2], [3]])).1)
          else
            (cfgP.rnnImpl.run true none (timeReductionApply cfgP.reduction_factor [[1], [2], [3]])).1) ∧
      (mkBlock cfgP).recognize [[1], [2], [3]] [[[7]]] =
        (cfgP.projImpl false
          (if cfgP.layer_norm then
            cfgP.lnImpl false
              ((cfgP.rnnImpl.run false (some [[[7]]])
                (timeReductionApply cfgP.reduction_factor [[1], [2], [3]])).1)
          else
            (cfgP.rnnImpl.run false (some [[[7]]])
              (timeReductionApply cfgP.reduction_factor [[1], [2], [3]])).1),
         (cfgP.rnnImpl.run false (some [[[7]]])
           (timeReductionApply cfgP.reduction_factor [[1], [2], [3]])).2)) ∧
    ((mkBlock cfgZ).reduction = none ∧
      (mkBlock cfgZ).call true [[1], [2], [3]] =
        cfgZ.projImpl true
          (if cfgZ.layer_norm then cfgZ.lnImpl true ((cfgZ.rnnImpl.run true none [[1], [2], [3]]).1)
           else (cfgZ.rnnImpl.run true none [[1], [2], [3]]).1) ∧
      (mkBlock cfgZ).recognize [[1], [2], [3]] [[[7]]] =
        (cfgZ.projImpl false
          (if cfgZ.layer_norm then
            cfgZ.lnImpl false ((cfgZ.rnnImpl.run false (some [[[7]]]) [[1], [2], [3]]).1)
           else (cfgZ.rnnImpl.run false (some [[[7]]]) [[1], [2], [3]]).1),
         (cfgZ.rnnImpl.run false (some [[[7]]]) [[1], [2], [3]]).2)) :=
  ⟨(claim2_time_reduction_order cfgP true [[1], [2], [3]] [[[7]]]).1 (by decide),
   (claim2_time_reduction_order cfgZ true [[1], [2], [3]] [[[7]]]).2 (by decide)⟩

/-- C4: the two version-dependent branches of `StreamingTransducer.recognize`
compute the same batch of transcripts — mapping `execute` with
`fn_output_signature` equals mapping it with `dtype=tf.string` under the CPU
device scope, and whatever the version string, `recognize` maps `execute` over
the signals. -/
theorem claim4_version_branch_equivalence (m : STModel) (signals : List Signal) :
    mapFnSig m.executeG signals = withDevice "/cpu:0" (mapFnDtype m.executeG signals) ∧
    ∀ tfVersion, m.recognize tfVersion signals = signals.map m.executeG := by
  refine ⟨rfl, fun v => ?_⟩
  unfold STModel.recognize
  split <;> rfl

/-- C7 counterexample: the training script's parser also accepts `--tfrecords`,
which is not among the seven options the claim lists, so the claimed CLI
surface ("and no other options") is false on the code. -/
theorem claim7_counterexample :
    "--tfrecords" ∈ (parserOptions "config.yml").map (fun o => o.flag) ∧
    "--tfrecords" ∉
      ["--config", "--max_ckpts", "--tbs", "--ebs", "--devices", "--mxp", "--cache"] := by
  decide

/-- C7 (amended): the CLI accepts exactly `--config` (defaulting to the
`config.yml` beside the script), `--max_ckpts` (default 10), `--tfrecords`
(a flag, default False), `--tbs` and `--ebs` (default None), `--devices`
(default `[0]`), `--mxp` and `--cache` (flags, default False), and no other
options. -/
theorem claim7_cli_surface_amended (defaultYaml : String) :
    (parserOptions defaultYaml).map (fun o => (o.flag, o.default)) =
      [("--config", OptDefault.str defaultYaml),
       ("--max_ckpts", OptDefault.int 10),
       ("--tfrecords", OptDefault.storeTrueFalse),
       ("--tbs", OptDefault.optIntNone),
       ("--ebs", OptDefault.optIntNone),
       ("--devices", OptDefault.intList [0]),
       ("--mxp", OptDefault.storeTrueFalse),
       ("--cache", OptDefault.storeTrueFalse)] := rfl

/-- C8 counterexample: `args.tfrecords` is a parsed command-line value, yet at
`tfrecords=True` (with the other flags False) its value appears in no framework
or configuration call of the script — it is only the branch condition choosing
the dataset class — so "every parsed command-line value is forwarded unmodified"
is false on the code. -/
theorem claim8_counterexample :
    (Args.mk "config.yml" 10 true none none [0] false false).tfrecords = true ∧
    ArgVal.bool (Args.mk "config.yml" 10 true none none [0] false false).tfrecords ∉
      forwardedArgs (Args.mk "config.yml" 10 true none none [0] false false) := by
  decide

/-- C8 (amended): every parsed command-line value except `args.tfrecords` is
forwarded unmodified — `args.mxp` to the optimizer options, `args.devices` to
`setup_strategy`, `args.config` to `Config`, `args.cache` to both dataset
constructors, `args.max_ckpts` to `compile` as `max_to_keep`, and `args.tbs`,
`args.ebs` to `fit` — while `args.tfrecords` is consumed by the script itself
as the branch condition selecting the TFRecord or Slice dataset class and is
not passed to any framework API. -/
theorem claim8_pass_through_amended (args : Args) :
    (scriptCalls args).autoMixedPrecision = args.mxp ∧
    (scriptCalls args).strategyDevices = args.devices ∧
    (scriptCalls args).configPath = args.config ∧
    (scriptCalls args).trainDataset.cache = args.cache ∧
    (scriptCalls args).evalDataset.cache = args.cache ∧
    (scriptCalls args).compileMaxToKeep = args.max_ckpts ∧
    (scriptCalls args).fitTrainBs = args.tbs ∧
    (scriptCalls args).fitEvalBs = args.ebs ∧
    (scriptCalls args).trainDataset.kind =
      (if args.tfrecords then DatasetKind.tfrecord else DatasetKind.slice) ∧
    (scriptCalls args).evalDataset.kind =
      (if args.tfrecords then DatasetKind.tfrecord else DatasetKind.slice) ∧
    forwardedArgs args =
      [ArgVal.bool args.mxp, ArgVal.intList args.devices, ArgVal.str args.config,
       ArgVal.bool args.cache, ArgVal.bool args.cache, ArgVal.int args.max_ckpts,
       ArgVal.optInt args.tbs, ArgVal.optInt args.ebs] := by
  refine ⟨rfl, rfl, rfl, rfl, rfl, rfl, rfl, rfl, rfl, rfl, rfl⟩

/-- Unfolding of `reductions.get` on a cons cell. -/
theorem dictGet_cons (p : Nat × Int) (d : List (Nat × Int)) (k : Nat) (dflt : Int) :
    dictGet (p :: d) k dflt = if p.1 = k then p.2 else dictGet d k dflt := by
  by_cases h : p.1 = k <;> simp [dictGet, List.find?_cons, h]

/-- Lookup via `reductions.get` falls back to the default when the key is absent. -/
theorem dictGet_not_mem (d : List (Nat × Int)) (k : Nat) (dflt : Int)
    (h : k ∉ d.map Prod.fst) : dictGet d k dflt = dflt := by
  have hfind : d.find? (fun p => p.1 == k) = none := by
    rw [List.find?_eq_none]
    intro x hx
    simp only [beq_iff_eq]
    intro hxk
    exact h (hxk ▸ List.mem_map_of_mem Prod.fst hx)
  simp [dictGet, hfind]

/-- With unique keys, looking a key up after filtering the dict either returns
the original binding (when it passes the filter) or the default 0. -/
theorem dictGet_filter (d : List (Nat × Int)) (hnd : (d.map Prod.fst).Nodup)
    (q : Nat × Int → Bool) (i : Nat) :
    dictGet (d.filter q) i 0 =
      (match d.find? (fun p => p.1 == i) with
       | some p => if q p then p.2 else 0
       | none => 0) := by
  induction d with
  | nil => rfl
  | cons p d ih =>
    have hnd2 : (d.map Prod.fst).Nodup := (List.nodup_cons.mp hnd).2
    have hpin : p.1 ∉ d.map Prod.fst := (List.nodup_cons.mp hnd).1
    by_cases hk : p.1 = i
    · by_cases hq : q p
      · rw [List.filter_cons_of_pos hq, dictGet_cons]
        simp [List.find?_cons, hk, hq]
      · rw [List.filter_cons_of_neg (by simpa using hq)]
        have habs : i ∉ (d.filter q).map Prod.fst := by
          intro hmem
          rcases List.mem_map.mp hmem with ⟨x, hx, hxi⟩
          exact hpin (hk ▸ hxi ▸ List.mem_map_of_mem Prod.fst (List.mem_of_mem_filter hx))
        rw [dictGet_not_mem _ _ _ habs]
        simp [List.find?_cons, hk, hq]
    · have hkb : (p.1 == i) = false := by simpa using hk
      by_cases hq : q p
      · rw [List.filter_cons_of_pos hq, dictGet_cons]
        simp only [hk, if_false, List.find?_cons, hkb, cond_false]
        exact ih hnd2
      · rw [List.filter_cons_of_neg (by simpa using hq)]
        simp only [List.find?_cons, hkb, cond_false]
        exact ih hnd2

/-- The `time_reduction_factor` loop computes the product of the positive
per-index reduction factors (with 1 for indices without a positive factor). -/
theorem trfCalc_eq_prod (r : List (Nat × Int)) (n : Nat) :
    timeReductionFactorCalc r n =
      ∏ i in Finset.range n, (if 0 < dictGet r i 0 then dictGet r i 0 else 1) := by
  induction n with
  | zero => simp [timeReductionFactorCalc]
  | succ n ih =>
    rw [Finset.prod_range_succ, ← ih]
    unfold timeReductionFactorCalc
    rw [List.range_succ, List.foldl_append]
    simp only [List.foldl_cons, List.foldl_nil]
    by_cases h : 0 < dictGet r n 0 <;> simp [h]

/-- The `time_reduction_factor` loop never drops below 1. -/
theorem one_le_trfCalc (r : List (Nat × Int)) (n : Nat) :
    1 ≤ timeReductionFactorCalc r n := by
  induction n with
  | zero => simp [timeReductionFactorCalc]
  | succ n ih =>
    unfold timeReductionFactorCalc at ih ⊢
    rw [List.range_succ, List.foldl_append]
    simp only [List.foldl_cons, List.foldl_nil]
    by_cases h : 0 < dictGet r n 0
    · have h1 : 1 ≤ dictGet r n 0 := h
      simp only [h, if_true]
      nlinarith
    · simpa [h] using ih

/-- C6: the encoder's `time_reduction_factor` is the product of the positive
`reductions.get(i, 0)` over block indices `i < nlayers`; it is at least 1,
equals 1 when no index has a positive factor, is unchanged by dropping entries
with out-of-range keys or non-positive values (keys being unique), and
`StreamingTransducer` copies its encoder's value. -/
theorem claim6_time_reduction_factor (c : EncoderConfig)
    (tfx : Signal → Feats) (blank : Int) (pis : EncStates)
    (pg : Mat → Int → EncStates → Bool → Hyp) (pbs : Mat → Bool → String)
    (ie : List Int → String) (i2u : List Int → List Int) :
    (mkEncoder c).time_reduction_factor =
      (∏ i in Finset.range c.nlayers,
        (if 0 < dictGet c.reductions i 0 then dictGet c.reductions i 0 else 1)) ∧
    1 ≤ (mkEncoder c).time_reduction_factor ∧
    ((∀ i, i < c.nlayers → dictGet c.reductions i 0 ≤ 0) →
      (mkEncoder c).time_reduction_factor = 1) ∧
    ((c.reductions.map Prod.fst).Nodup →
      timeReductionFactorCalc
          (c.reductions.filter fun p => decide (p.1 < c.nlayers ∧ 0 < p.2)) c.nlayers =
        (mkEncoder c).time_reduction_factor) ∧
    (mkSTModel c tfx blank pis pg pbs ie i2u).time_reduction_factor =
      (mkSTModel c tfx blank pis pg pbs ie i2u).encoder.time_reduction_factor := by
  have henc : (mkEncoder c).time_reduction_factor =
      timeReductionFactorCalc c.reductions c.nlayers := rfl
  refine ⟨henc ▸ trfCalc_eq_prod c.reductions c.nlayers,
          henc ▸ one_le_trfCalc c.reductions c.nlayers, ?_, ?_, rfl⟩
  · intro h
    rw [henc, trfCalc_eq_prod]
    apply Finset.prod_eq_one
    intro i hi
    rw [if_neg (not_lt.mpr (h i (Finset.mem_range.mp hi)))]
  · intro hnd
    rw [henc, trfCalc_eq_prod, trfCalc_eq_prod]
    apply Finset.prod_congr rfl
    intro i hi
    have hi2 : i < c.nlayers := Finset.mem_range.mp hi
    rw [dictGet_filter _ hnd]
    cases hfind : c.reductions.find? (fun p => p.1 == i) with
    | none => simp [dictGet, hfind]
    | some p =>
        have hp1 : p.1 = i := by simpa using List.find?_some hfind
        have hdg : dictGet c.reductions i 0 = p.2 := by simp [dictGet, hfind]
        rw [hdg]
        by_cases hv : 0 < p.2
        · simp [hp1, hi2, hv]
        · simp [hp1, hv]

/-- Witness for C6: the dict `{0: 3, 1: 2, 5: 4, 2: -1}` over 3 layers is
insensitive to the out-of-range and non-positive entries, and the dict
`{0: -2}` over 2 layers yields factor 1. -/
theorem claim6_time_reduction_factor_witness :
    (timeReductionFactorCalc
        (encCfgMain.reductions.filter fun p =>
          decide (p.1 < encCfgMain.nlayers ∧ 0 < p.2)) encCfgMain.nlayers =
      (mkEncoder encCfgMain).time_reduction_factor) ∧
    (mkEncoder encCfgNeg).time_reduction_factor = 1 :=
  ⟨(claim6_time_reduction_factor encCfgMain (fun _ => []) 0 [] (fun _ p s _ => ⟨[p], s⟩)
      (fun _ _ => "") (fun _ => "") (fun l => l)).2.2.2.1 (by decide),
   (claim6_time_reduction_factor encCfgNeg (fun _ => []) 0 [] (fun _ p s _ => ⟨[p], s⟩)
      (fun _ _ => "") (fun _ => "") (fun l => l)).2.2.1 (by decide)⟩

/-- Each block contributes exactly one state slice to `get_initial_state`. -/
theorem encInit_length (e : Encoder) : e.get_initial_state.length = e.blocks.length := by
  simp [Encoder.get_initial_state]

/-- When the states tensor has at least one slice per block, the encoder loop
succeeds and computes its total companion. -/
theorem encRec_eq_some (blocks : List Block) (x : Mat) (states : EncStates)
    (h : blocks.length ≤ states.length) :
    encRec blocks x states = some (encRecT blocks x states) := by
  induction blocks generalizing x states with
  | nil => cases states <;> rfl
  | cons b bs ih =>
    cases states with
    | nil => simp at h
    | cons s ss =>
      simp only [encRec, encRecT]
      rw [ih _ ss (by simpa using h)]

/-- The `execute` closure of greedy `recognize` always yields one transcript,
obtained by greedy decoding the signal's encoder output from the blank token
and the zero states of encoder and prediction network. -/
theorem executeG_eq (m : STModel) (s : Signal) :
    m.executeG s = some (m.iextract
      (m.performGreedy (encodedFromInit m s) m.blank m.predictNetInitialState true).prediction) := by
  unfold STModel.executeG STModel.encoder_inference Encoder.recognize
  simp only [encRec_eq_some _ _ _ (le_of_eq (encInit_length m.encoder).symm), encodedFromInit]

/-- The `execute` closure of `recognize_beam` always yields one transcript,
obtained by beam search over the signal's encoder output. -/
theorem executeB_eq (m : STModel) (lm : Bool) (s : Signal) :
    m.executeB lm s = some (m.iextract
      ((stringsSplit (m.performBeamSearch (encodedFromInit m s) lm)).map stringsToNumber)) := by
  unfold STModel.executeB STModel.encoder_inference Encoder.recognize
  simp only [encRec_eq_some _ _ _ (le_of_eq (encInit_length m.encoder).symm), encodedFromInit]

/-- C3: `StreamingTransducer.recognize` returns exactly one scalar transcript
per input signal, each produced by greedy decoding of that signal's encoder
output from the encoder's and prediction network's initial states and the
blank token; `recognize_beam` likewise returns exactly one transcript per
signal, produced by beam search over that signal's encoder output. -/
theorem claim3_one_transcript_per_signal (m : STModel) (tfVersion : String)
    (signals : List Signal) (lm : Bool) :
    m.recognize tfVersion signals =
      signals.map (fun s => some (m.iextract
        (m.performGreedy (encodedFromInit m s) m.blank
          m.predictNetInitialState true).prediction)) ∧
    (m.recognize tfVersion signals).length = signals.length ∧
    m.recognize_beam signals lm =
      signals.map (fun s => some (m.iextract
        ((stringsSplit (m.performBeamSearch (encodedFromInit m s) lm)).map stringsToNumber))) ∧
    (m.recognize_beam signals lm).length = signals.length := by
  have hG : m.executeG = fun s => some (m.iextract
      (m.performGreedy (encodedFromInit m s) m.blank
        m.predictNetInitialState true).prediction) :=
    funext (executeG_eq m)
  have hB : m.executeB lm = fun s => some (m.iextract
      ((stringsSplit (m.performBeamSearch (encodedFromInit m s) lm)).map stringsToNumber)) :=
    funext (executeB_eq m lm)
  have hrec : m.recognize tfVersion signals = signals.map m.executeG := by
    unfold STModel.recognize
    split <;> rfl
  have hbeam : m.recognize_beam signals lm = signals.map (m.executeB lm) := rfl
  refine ⟨?_, ?_, ?_, ?_⟩
  · rw [hrec, hG]
  · rw [hrec]; simp
  · rw [hbeam, hB]
  · rw [hbeam]; simp

/-- The states a block's `recognize` returns are exactly the states its RNN
returned (stacked along axis 0). -/
theorem block_recognize_states (b : Block) (x : Mat) (s : StateStack) :
    (b.recognize x s).2 =
      (b.rnn.run false (some s)
        (match b.reduction with
         | some r => r x
         | none => x)).2 := by
  cases hr : b.reduction <;> simp [Block.recognize, hr]

/-- The encoder loop of `StreamingTransducerEncoder.recognize`: with one state
slice per block and shape-preserving RNNs it succeeds, and the returned states
tensor stacks, in block order, exactly the states each block's RNN returned,
with the same shape as the input states. -/
theorem encRec_spec (blocks : List Block) (x : Mat) (states : EncStates)
    (hlen : states.length = blocks.length)
    (hrnn : ∀ b ∈ blocks, ∀ y s, stackShape ((b.rnn.run false (some s) y).2) = stackShape s) :
    ∃ out ns, encRec blocks x states = some (out, ns) ∧
      ns.length = states.length ∧
      encShape ns = encShape states ∧
      ∀ i (hb : i < blocks.length) (hs : i < states.length) (hn : i < ns.length)
        (hm : i < (encInputs blocks x states).length),
        ns[i] = (blocks[i].recognize (encInputs blocks x states)[i] states[i]).2 := by
  induction blocks generalizing x states with
  | nil =>
    cases states with
    | nil => exact ⟨x, [], rfl, rfl, rfl, by intro i hb _ _ _; simp at hb⟩
    | cons s ss => simp at hlen
  | cons b bs ih =>
    cases states with
    | nil => simp at hlen
    | cons s ss =>
      have hlen2 : ss.length = bs.length := by simpa using hlen
      have hrnnb := hrnn b (List.mem_cons_self b bs)
      have hrnn2 : ∀ b2 ∈ bs, ∀ y s2,
          stackShape ((b2.rnn.run false (some s2) y).2) = stackShape s2 :=
        fun b2 hb2 => hrnn b2 (List.mem_cons_of_mem b hb2)
      obtain ⟨out, ns, heq, hlen3, hshape, hidx⟩ := ih ((b.recognize x s).1) ss hlen2 hrnn2
      refine ⟨out, (b.recognize x s).2 :: ns, ?_, by simp [hlen3], ?_, ?_⟩
      · simp only [encRec]
        rw [heq]
      · simp only [encShape, List.map_cons]
        rw [show stackShape (b.recognize x s).2 = stackShape s from
              (block_recognize_states b x s) ▸ hrnnb _ _]
        exact congrArg (stackShape s :: ·) hshape
      · intro i hb2 hs2 hn2 hm2
        cases i with
        | zero => simp [encInputs]
        | succ j =>
          simp only [encInputs, List.getElem_cons_succ]
          exact hidx j (by simpa using hb2) (by simpa using hs2) (by simpa using hn2)
            (by simpa [encInputs] using hm2)

/-- C1: state threading for streaming inference.  For every call of
`StreamingTransducerEncoder.recognize` with one state slice per block and
shape-preserving RNN layers, the returned new-states tensor has the same shape
as the input states and stacks exactly one per-block state — the states
returned by that block's RNN — for each block in order; and
`StreamingTransducer.recognize_tflite` returns encoder and prediction states of
the same shapes as the `encoder_states` and `prediction_states` it was given. -/
theorem claim1_state_threading :
    (∀ (e : Encoder) (inputs : Feats) (states : EncStates),
      states.length = e.blocks.length →
      (∀ b ∈ e.blocks, ∀ y s, stackShape ((b.rnn.run false (some s) y).2) = stackShape s) →
      ∃ out ns, e.recognize inputs states = some (out, ns) ∧
        ns.length = states.length ∧
        encShape ns = encShape states ∧
        ∀ i (hb : i < e.blocks.length) (hs : i < states.length) (hn : i < ns.length)
          (hm : i < (encInputs e.blocks (mergeTwoLastDims inputs) states).length),
          ns[i] = (e.blocks[i].recognize
            (encInputs e.blocks (mergeTwoLastDims inputs) states)[i] states[i]).2) ∧
    (∀ (m : STModel) (signal : Signal) (predicted : Int)
      (encoder_states prediction_states : EncStates),
      encoder_states.length = m.encoder.blocks.length →
      (∀ b ∈ m.encoder.blocks, ∀ y s,
        stackShape ((b.rnn.run false (some s) y).2) = stackShape s) →
      (∀ enc p s sw, encShape ((m.performGreedy enc p s sw).states) = encShape s) →
      (∀ enc p s sw, (m.performGreedy enc p s sw).prediction ≠ []) →
      ∃ tr last es ps,
        m.recognize_tflite signal predicted encoder_states prediction_states =
          some (tr, last, es, ps) ∧
        encShape es = encShape encoder_states ∧
        encShape ps = encShape prediction_states) := by
  constructor
  · intro e inputs states hlen hrnn
    exact encRec_spec e.blocks (mergeTwoLastDims inputs) states hlen hrnn
  · intro m signal predicted encS predS hlen hrnn hpgs hpgn
    obtain ⟨out, ns, heq, hlen2, hshape, _⟩ :=
      encRec_spec m.encoder.blocks (mergeTwoLastDims (m.tf_extract signal)) encS hlen hrnn
    unfold STModel.recognize_tflite STModel.encoder_inference Encoder.recognize
    simp only [heq]
    obtain ⟨last, hlast⟩ := Option.isSome_iff_exists.mp
      (List.getLast?_isSome.mpr (hpgn out predicted predS false))
    rw [hlast]
    exact ⟨_, last, ns, _, rfl, hshape, hpgs out predicted predS false⟩

/-- Witness for C1, at a one-block encoder with an echoing RNN and a greedy
decoder that passes its states through. -/
theorem claim1_state_threading_witness :
    (∃ out ns, encA.recognize [[[1], [2]]] [[[[4]]]] = some (out, ns) ∧
      ns.length = ([[[[4]]]] : EncStates).length ∧
      encShape ns = encShape [[[[4]]]] ∧
      ∀ i (hb : i < encA.blocks.length) (hs : i < ([[[[4]]]] : EncStates).length)
        (hn : i < ns.length)
        (hm : i < (encInputs encA.blocks (mergeTwoLastDims [[[1], [2]]]) [[[[4]]]]).length),
        ns[i] = (encA.blocks[i].recognize
          (encInputs encA.blocks (mergeTwoLastDims [[[1], [2]]]) [[[[4]]]])[i]
          (([[[[4]]]] : EncStates)[i])).2) ∧
    (∃ tr last es ps,
      modelA.recognize_tflite [3] 9 [[[[4]]]] [[[[6]]]] = some (tr, last, es, ps) ∧
      encShape es = encShape [[[[4]]]] ∧
      encShape ps = encShape [[[[6]]]]) :=
  ⟨claim1_state_threading.1 encA [[[1], [2]]] [[[[4]]]] rfl
      (by
        intro b hb y s
        rw [List.mem_singleton.mp hb]
        rfl),
   claim1_state_threading.2 modelA [3] 9 [[[[4]]]] [[[[6]]]] rfl
      (by
        intro b hb y s
        rw [List.mem_singleton.mp hb]
        rfl)
      (fun _ _ _ _ => rfl)
      (fun _ _ _ _ => by simp [modelA])⟩

/-- C10: under the precondition that `perform_greedy` always returns a
prediction sequence with at least one token, the `hypothesis.prediction[-1]`
access in `StreamingTransducer.recognize_tflite` never fails: for any signal
and (per-block) states, the call returns, and its second component is the last
element of the greedy hypothesis's prediction sequence. -/
theorem claim10_last_prediction_defined (m : STModel) (signal : Signal) (predicted : Int)
    (encoder_states prediction_states : EncStates)
    (hlen : encoder_states.length = m.encoder.blocks.length)
    (hne : ∀ enc p s sw, (m.performGreedy enc p s sw).prediction ≠ []) :
    ∃ tr last es ps,
      m.recognize_tflite signal predicted encoder_states prediction_states =
        some (tr, last, es, ps) ∧
      (m.performGreedy (encodedWith m signal encoder_states) predicted
        prediction_states false).prediction.getLast? = some last := by
  unfold STModel.recognize_tflite STModel.encoder_inference Encoder.recognize
  simp only [encRec_eq_some _ _ _ (le_of_eq hlen.symm), encodedWith]
  obtain ⟨last, hlast⟩ := Option.isSome_iff_exists.mp
    (List.getLast?_isSome.mpr
      (hne (encRecT m.encoder.blocks (mergeTwoLastDims (m.tf_extract signal)) encoder_states).1
        predicted prediction_states false))
  rw [hlast]
  exact ⟨_, last, _, _, rfl, rfl⟩

/-- Witness for C10 at a concrete model whose greedy decoder seeds its
prediction with the passed-in token. -/
theorem claim10_last_prediction_defined_witness :
    ∃ tr last es ps,
      modelA.recognize_tflite [3] 9 [[[[4]]]] [[[[6]]]] = some (tr, last, es, ps) ∧
      (modelA.performGreedy (encodedWith modelA [3] [[[[4]]]]) 9
        [[[[6]]]] false).prediction.getLast? = some last :=
  claim10_last_prediction_defined modelA [3] 9 [[[[4]]]] [[[[6]]]] rfl
    (fun _ _ _ _ => by simp [modelA])

/-- Sequencing after a successful call continues with its value. -/
theorem exBind_ok {ε α β : Type} (a : α) (f : α → Except ε β) :
    (Except.ok a >>= f : Except ε β) = f a := rfl

/-- Sequencing after a failed call short-circuits with the same error. -/
theorem exBind_error {ε α β : Type} (e : ε) (f : α → Except ε β) :
    ((Except.error e : Except ε α) >>= f) = .error e := rfl

/-- C9: neither the training script nor the streaming-transducer model catches,
transforms or wraps an exception: whichever external call is the first to fail,
its error reaches the caller unchanged — one conjunct per call site of the
script's straight-line sequence and of `recognize_tflite`. -/
theorem claim9_error_propagation {ε α : Type} (env : ScriptEnv ε α) (menv : ModelEnv ε α)
    (args : Args) (e : ε) (signal predicted encStates predStates : α) :
    (env.setupEnvironment = .error e → runScript env args = .error e) ∧
    (∀ a : α, env.setupEnvironment = .ok a →
      env.clearSession = .error e → runScript env args = .error e) ∧
    (∀ a b : α, env.setupEnvironment = .ok a → env.clearSession = .ok b →
      env.setOptions args.mxp = .error e → runScript env args = .error e) ∧
    (∀ a b c : α, env.setupEnvironment = .ok a → env.clearSession = .ok b →
      env.setOptions args.mxp = .ok c →
      env.setupStrategy args.devices = .error e → runScript env args = .error e) ∧
    (∀ a b c st : α, env.setupEnvironment = .ok a → env.clearSession = .ok b →
      env.setOptions args.mxp = .ok c → env.setupStrategy args.devices = .ok st →
      env.loadConfig args.config = .error e → runScript env args = .error e) ∧
    (∀ a b c st cf : α, env.setupEnvironment = .ok a → env.clearSession = .ok b →
      env.setOptions args.mxp = .ok c → env.setupStrategy args.devices = .ok st →
      env.loadConfig args.config = .ok cf →
      env.mkSpeechFeaturizer cf = .error e → runScript env args = .error e) ∧
    (∀ a b c st cf sf : α, env.setupEnvironment = .ok a → env.clearSession = .ok b →
      env.setOptions args.mxp = .ok c → env.setupStrategy args.devices = .ok st →
      env.loadConfig args.config = .ok cf → env.mkSpeechFeaturizer cf = .ok sf →
      env.mkTextFeaturizer cf = .error e → runScript env args = .error e) ∧
    (∀ a b c st cf sf tz : α, env.setupEnvironment = .ok a → env.clearSession = .ok b →
      env.setOptions args.mxp = .ok c → env.setupStrategy args.devices = .ok st →
      env.loadConfig args.config = .ok cf → env.mkSpeechFeaturizer cf = .ok sf →
      env.mkTextFeaturizer cf = .ok tz →
      datasetCtor env args.tfrecords cf sf tz "train" args.cache = .error e →
      runScript env args = .error e) ∧
    (∀ a b c st cf sf tz tds : α, env.setupEnvironment = .ok a → env.clearSession = .ok b →
      env.setOptions args.mxp = .ok c → env.setupStrategy args.devices = .ok st →
      env.loadConfig args.config = .ok cf → env.mkSpeechFeaturizer cf = .ok sf →
      env.mkTextFeaturizer cf = .ok tz →
      datasetCtor env args.tfrecords cf sf tz "train" args.cache = .ok tds →
      datasetCtor env args.tfrecords cf sf tz "eval" args.cache = .error e →
      runScript env args = .error e) ∧
    (∀ a b c st cf sf tz tds eds : α, env.setupEnvironment = .ok a → env.clearSession = .ok b →
      env.setOptions args.mxp = .ok c → env.setupStrategy args.devices = .ok st →
      env.loadConfig args.config = .ok cf → env.mkSpeechFeaturizer cf = .ok sf →
      env.mkTextFeaturizer cf = .ok tz →
      datasetCtor env args.tfrecords cf sf tz "train" args.cache = .ok tds →
      datasetCtor env args.tfrecords cf sf tz "eval" args.cache = .ok eds →
      env.mkTrainer cf tz st = .error e → runScript env args = .error e) ∧
    (∀ a b c st cf sf tz tds eds tr : α, env.setupEnvironment = .ok a →
      env.clearSession = .ok b →
      env.setOptions args.mxp = .ok c → env.setupStrategy args.devices = .ok st →
      env.loadConfig args.config = .ok cf → env.mkSpeechFeaturizer cf = .ok sf →
      env.mkTextFeaturizer cf = .ok tz →
      datasetCtor env args.tfrecords cf sf tz "train" args.cache = .ok tds →
      datasetCtor env args.tfrecords cf sf tz "eval" args.cache = .ok eds →
      env.mkTrainer cf tz st = .ok tr →
      env.mkModel cf tz = .error e → runScript env args = .error e) ∧
    (∀ a b c st cf sf tz tds eds tr md : α, env.setupEnvironment = .ok a →
      env.clearSession = .ok b →
      env.setOptions args.mxp = .ok c → env.setupStrategy args.devices = .ok st →
      env.loadConfig args.config = .ok cf → env.mkSpeechFeaturizer cf = .ok sf →
      env.mkTextFeaturizer cf = .ok tz →
      datasetCtor env args.tfrecords cf sf tz "train" args.cache = .ok tds →
      datasetCtor env args.tfrecords cf sf tz "eval" args.cache = .ok eds →
      env.mkTrainer cf tz st = .ok tr → env.mkModel cf tz = .ok md →
      env.buildModel md sf = .error e → runScript env args = .error e) ∧
    (∀ a b c st cf sf tz tds eds tr md bd : α, env.setupEnvironment = .ok a →
      env.clearSession = .ok b →
      env.setOptions args.mxp = .ok c → env.setupStrategy args.devices = .ok st →
      env.loadConfig args.config = .ok cf → env.mkSpeechFeaturizer cf = .ok sf →
      env.mkTextFeaturizer cf = .ok tz →
      datasetCtor env args.tfrecords cf sf tz "train" args.cache = .ok tds →
      datasetCtor env args.tfrecords cf sf tz "eval" args.cache = .ok eds →
      env.mkTrainer cf tz st = .ok tr → env.mkModel cf tz = .ok md →
      env.buildModel md sf = .ok bd →
      env.summaryModel md = .error e → runScript env args = .error e) ∧
    (∀ a b c st cf sf tz tds eds tr md bd sm : α, env.setupEnvironment = .ok a →
      env.clearSession = .ok b →
      env.setOptions args.mxp = .ok c → env.setupStrategy args.devices = .ok st →
      env.loadConfig args.config = .ok cf → env.mkSpeechFeaturizer cf = .ok sf →
      env.mkTextFeaturizer cf = .ok tz →
      datasetCtor env args.tfrecords cf sf tz "train" args.cache = .ok tds →
      datasetCtor env args.tfrecords cf sf tz "eval" args.cache = .ok eds →
      env.mkTrainer cf tz st = .ok tr → env.mkModel cf tz = .ok md →
      env.buildModel md sf = .ok bd → env.summaryModel md = .ok sm →
      env.getOptimizer cf = .error e → runScript env args = .error e) ∧
    (∀ a b c st cf sf tz tds eds tr md bd sm op : α, env.setupEnvironment = .ok a →
      env.clearSession = .ok b →
      env.setOptions args.mxp = .ok c → env.setupStrategy args.devices = .ok st →
      env.loadConfig args.config = .ok cf → env.mkSpeechFeaturizer cf = .ok sf →
      env.mkTextFeaturizer cf = .ok tz →
      datasetCtor env args.tfrecords cf sf tz "train" args.cache = .ok tds →
      datasetCtor env args.tfrecords cf sf tz "eval" args.cache = .ok eds →
      env.mkTrainer cf tz st = .ok tr → env.mkModel cf tz = .ok md →
      env.buildModel md sf = .ok bd → env.summaryModel md = .ok sm →
      env.getOptimizer cf = .ok op →
      env.compileTrainer tr md op args.max_ckpts = .error e →
      runScript env args = .error e) ∧
    (∀ a b c st cf sf tz tds eds tr md bd sm op cp : α, env.setupEnvironment = .ok a →
      env.clearSession = .ok b →
      env.setOptions args.mxp = .ok c → env.setupStrategy args.devices = .ok st →
      env.loadConfig args.config = .ok cf → env.mkSpeechFeaturizer cf = .ok sf →
      env.mkTextFeaturizer cf = .ok tz →
      datasetCtor env args.tfrecords cf sf tz "train" args.cache = .ok tds →
      datasetCtor env args.tfrecords cf sf tz "eval" args.cache = .ok eds →
      env.mkTrainer cf tz st = .ok tr → env.mkModel cf tz = .ok md →
      env.buildModel md sf = .ok bd → env.summaryModel md = .ok sm →
      env.getOptimizer cf = .ok op →
      env.compileTrainer tr md op args.max_ckpts = .ok cp →
      env.fitTrainer tr tds eds args.tbs args.ebs = .error e →
      runScript env args = .error e) ∧
    (menv.tfExtract signal = .error e →
      runRecognizeTflite menv signal predicted encStates predStates = .error e) ∧
    (∀ ft : α, menv.tfExtract signal = .ok ft →
      menv.encoderRecognize ft encStates = .error e →
      runRecognizeTflite menv signal predicted encStates predStates = .error e) ∧
    (∀ (ft : α) (er : α × α), menv.tfExtract signal = .ok ft →
      menv.encoderRecognize ft encStates = .ok er →
      menv.performGreedyRun er.1 predicted predStates = .error e →
      runRecognizeTflite menv signal predicted encStates predStates = .error e) ∧
    (∀ (ft : α) (er : α × α) (hy : α), menv.tfExtract signal = .ok ft →
      menv.encoderRecognize ft encStates = .ok er →
      menv.performGreedyRun er.1 predicted predStates = .ok hy →
      menv.upoints hy = .error e →
      runRecognizeTflite menv signal predicted encStates predStates = .error e) ∧
    (∀ (ft : α) (er : α × α) (hy up : α), menv.tfExtract signal = .ok ft →
      menv.encoderRecognize ft encStates = .ok er →
      menv.performGreedyRun er.1 predicted predStates = .ok hy →
      menv.upoints hy = .ok up →
      menv.lastPrediction hy = .error e →
      runRecognizeTflite menv signal predicted encStates predStates = .error e) := by
  refine ⟨?_, ?_, ?_, ?_, ?_, ?_, ?_, ?_, ?_, ?_, ?_, ?_, ?_, ?_, ?_, ?_, ?_, ?_, ?_, ?_, ?_⟩ <;>
    intros <;>
    first
      | (unfold runScript; simp only [*, exBind_ok, exBind_error])
      | (unfold runRecognizeTflite; simp only [*, exBind_ok, exBind_error])

/-- Witness for C9: for each call site in turn, an environment in which exactly
that call fails with error 7 makes the whole script (resp. `recognize_tflite`)
return error 7 unchanged. -/
theorem claim9_error_propagation_witness :
    runScript { envOkS with setupEnvironment := .error 7 } argsW = .error 7 ∧
    runScript { envOkS with clearSession := .error 7 } argsW = .error 7 ∧
    runScript { envOkS with setOptions := fun _ => .error 7 } argsW = .error 7 ∧
    runScript { envOkS with setupStrategy := fun _ => .error 7 } argsW = .error 7 ∧
    runScript { envOkS with loadConfig := fun _ => .error 7 } argsW = .error 7 ∧
    runScript { envOkS with mkSpeechFeaturizer := fun _ => .error 7 } argsW = .error 7 ∧
    runScript { envOkS with mkTextFeaturizer := fun _ => .error 7 } argsW = .error 7 ∧
    runScript { envOkS with mkSliceDataset := fun _ _ _ _ _ => .error 7 } argsW = .error 7 ∧
    runScript
      { envOkS with
        mkSliceDataset := fun _ _ _ stage _ =>
          if stage == "eval" then .error 7 else .ok 0 } argsW = .error 7 ∧
    runScript { envOkS with mkTrainer := fun _ _ _ => .error 7 } argsW = .error 7 ∧
    runScript { envOkS with mkModel := fun _ _ => .error 7 } argsW = .error 7 ∧
    runScript { envOkS with buildModel := fun _ _ => .error 7 } argsW = .error 7 ∧
    runScript { envOkS with summaryModel := fun _ => .error 7 } argsW = .error 7 ∧
    runScript { envOkS with getOptimizer := fun _ => .error 7 } argsW = .error 7 ∧
    runScript { envOkS with compileTrainer := fun _ _ _ _ => .error 7 } argsW = .error 7 ∧
    runScript { envOkS with fitTrainer := fun _ _ _ _ _ => .error 7 } argsW = .error 7 ∧
    runRecognizeTflite { menvOk with tfExtract := fun _ => .error 7 } 1 2 3 4 = .error 7 ∧
    runRecognizeTflite { menvOk with encoderRecognize := fun _ _ => .error 7 } 1 2 3 4 =
      .error 7 ∧
    runRecognizeTflite { menvOk with performGreedyRun := fun _ _ _ => .error 7 } 1 2 3 4 =
      .error 7 ∧
    runRecognizeTflite { menvOk with upoints := fun _ => .error 7 } 1 2 3 4 = .error 7 ∧
    runRecognizeTflite { menvOk with lastPrediction := fun _ => .error 7 } 1 2 3 4 =
      .error 7 :=
  ⟨(claim9_error_propagation { envOkS with setupEnvironment := .error 7 } menvOk argsW 7
      0 0 0 0).1 rfl,
   (claim9_error_propagation { envOkS with clearSession := .error 7 } menvOk argsW 7
      0 0 0 0).2.1 0 rfl rfl,
   (claim9_error_propagation { envOkS with setOptions := fun _ => .error 7 } menvOk argsW 7
      0 0 0 0).2.2.1 0 0 rfl rfl rfl,
   (claim9_error_propagation { envOkS with setupStrategy := fun _ => .error 7 } menvOk argsW 7
      0 0 0 0).2.2.2.1 0 0 0 rfl rfl rfl rfl,
   (claim9_error_propagation { envOkS with loadConfig := fun _ => .error 7 } menvOk argsW 7
      0 0 0 0).2.2.2.2.1 0 0 0 0 rfl rfl rfl rfl rfl,
   (claim9_error_propagation { envOkS with mkSpeechFeaturizer := fun _ => .error 7 } menvOk
      argsW 7 0 0 0 0).2.2.2.2.2.1 0 0 0 0 0 rfl rfl rfl rfl rfl rfl,
   (claim9_error_propagation { envOkS with mkTextFeaturizer := fun _ => .error 7 } menvOk
      argsW 7 0 0 0 0).2.2.2.2.2.2.1 0 0 0 0 0 0 rfl rfl rfl rfl rfl rfl rfl,
   (claim9_error_propagation { envOkS with mkSliceDataset := fun _ _ _ _ _ => .error 7 }
      menvOk argsW 7 0 0 0 0).2.2.2.2.2.2.2.1 0 0 0 0 0 0 0
      rfl rfl rfl rfl rfl rfl rfl rfl,
   (claim9_error_propagation
      { envOkS with
        mkSliceDataset := fun _ _ _ stage _ =>
          if stage == "eval" then .error 7 else .ok 0 }
      menvOk argsW 7 0 0 0 0).2.2.2.2.2.2.2.2.1 0 0 0 0 0 0 0 0
      rfl rfl rfl rfl rfl rfl rfl rfl rfl,
   (claim9_error_propagation { envOkS with mkTrainer := fun _ _ _ => .error 7 } menvOk
      argsW 7 0 0 0 0).2.2.2.2.2.2.2.2.2.1 0 0 0 0 0 0 0 0 0
      rfl rfl rfl rfl rfl rfl rfl rfl rfl rfl,
   (claim9_error_propagation { envOkS with mkModel := fun _ _ => .error 7 } menvOk
      argsW 7 0 0 0 0).2.2.2.2.2.2.2.2.2.2.1 0 0 0 0 0 0 0 0 0 0
      rfl rfl rfl rfl rfl rfl rfl rfl rfl rfl rfl,
   (claim9_error_propagation { envOkS with buildModel := fun _ _ => .error 7 } menvOk
      argsW 7 0 0 0 0).2.2.2.2.2.2.2.2.2.2.2.1 0 0 0 0 0 0 0 0 0 0 0
      rfl rfl rfl rfl rfl rfl rfl rfl rfl rfl rfl rfl,
   (claim9_error_propagation { envOkS with summaryModel := fun _ => .error 7 } menvOk
      argsW 7 0 0 0 0).2.2.2.2.2.2.2.2.2.2.2.2.1 0 0 0 0 0 0 0 0 0 0 0 0
      rfl rfl rfl rfl rfl rfl rfl rfl rfl rfl rfl rfl rfl,
   (claim9_error_propagation { envOkS with getOptimizer := fun _ => .error 7 } menvOk
      argsW 7 0 0 0 0).2.2.2.2.2.2.2.2.2.2.2.2.2.1 0 0 0 0 0 0 0 0 0 0 0 0 0
      rfl rfl rfl rfl rfl rfl rfl rfl rfl rfl rfl rfl rfl rfl,
   (claim9_error_propagation { envOkS with compileTrainer := fun _ _ _ _ => .error 7 } menvOk
      argsW 7 0 0 0 0).2.2.2.2.2.2.2.2.2.2.2.2.2.2.1 0 0 0 0 0 0 0 0 0 0 0 0 0 0
      rfl rfl rfl rfl rfl rfl rfl rfl rfl rfl rfl rfl rfl rfl rfl,
   (claim9_error_propagation { envOkS with fitTrainer := fun _ _ _ _ _ => .error 7 } menvOk
      argsW 7 0 0 0 0).2.2.2.2.2.2.2.2.2.2.2.2.2.2.2.1 0 0 0 0 0 0 0 0 0 0 0 0 0 0 0
      rfl rfl rfl rfl rfl rfl rfl rfl rfl rfl rfl rfl rfl rfl rfl rfl,
   (claim9_error_propagation envOkS { menvOk with tfExtract := fun _ => .error 7 } argsW 7
      1 2 3 4).2.2.2.2.2.2.2.2.2.2.2.2.2.2.2.2.1 rfl,
   (claim9_error_propagation envOkS { menvOk with encoderRecognize := fun _ _ => .error 7 }
      argsW 7 1 2 3 4).2.2.2.2.2.2.2.2.2.2.2.2.2.2.2.2.2.1 0 rfl rfl,
   (claim9_error_propagation envOkS { menvOk with performGreedyRun := fun _ _ _ => .error 7 }
      argsW 7 1 2 3 4).2.2.2.2.2.2.2.2.2.2.2.2.2.2.2.2.2.2.1 0 (0, 0) rfl rfl rfl,
   (claim9_error_propagation envOkS { menvOk with upoints := fun _ => .error 7 }
      argsW 7 1 2 3 4).2.2.2.2.2.2.2.2.2.2.2.2.2.2.2.2.2.2.2.1 0 (0, 0) 0 rfl rfl rfl rfl,
   (claim9_error_propagation envOkS { menvOk with lastPrediction := fun _ => .error 7 }
      argsW 7 1 2 3 4).2.2.2.2.2.2.2.2.2.2.2.2.2.2.2.2.2.2.2.2 0 (0, 0) 0 0
      rfl rfl rfl rfl rfl⟩

end TFASR
